import Mathlib

/-!
Shallow embedding of pathfinder/simd/src/x86.rs: the four SSE-backed vector
types F32x4, I32x4, U32x4, U8x16 and the operations the verified claims
touch.  Float lanes are modelled as IEEE-754 binary32 bit patterns
(naturals below 2^32); integer lanes likewise as 32-bit patterns; byte
lanes as values below 2^256.  Each SSE intrinsic used by the source is
translated to its documented lane-level semantics.
-/

-- ## Scalar IEEE-754 binary32 semantics on bit patterns

/-- Biased exponent field (bits 23..30) of a binary32 bit pattern. -/
def f32Expo (b : Nat) : Nat := b / 2 ^ 23 % 256

/-- Mantissa field (bits 0..22) of a binary32 bit pattern. -/
def f32Mant (b : Nat) : Nat := b % 2 ^ 23

/-- A binary32 pattern encodes NaN iff the exponent field is all ones and
the mantissa is nonzero. -/
def f32IsNan (b : Nat) : Bool := f32Expo b == 255 && f32Mant b != 0

/-- Ordering key of a non-NaN binary32 pattern.  For binary32, pattern
order on the magnitude bits (bits 0..30) agrees with numeric order of
non-negative values (including +0 and +inf), and negative values mirror
this; both zeroes map to key 0, so +0 and -0 compare equal.  Ordered IEEE
comparisons of non-NaN values coincide with comparisons of these keys. -/
def f32Key (b : Nat) : Int := if b / 2 ^ 31 % 2 == 1 then -(b % 2 ^ 31 : Int) else (b % 2 ^ 31 : Int)

/-- Lane semantics of CMPEQPS (`_mm_cmpeq_ps`): ordered equality, false
whenever either operand is NaN. -/
def f32Eq (a b : Nat) : Bool := !f32IsNan a && !f32IsNan b && f32Key a == f32Key b

/-- Lane semantics of CMPGTPS (`_mm_cmpgt_ps`): ordered greater-than,
false whenever either operand is NaN. -/
def f32Gt (a b : Nat) : Bool := !f32IsNan a && !f32IsNan b && decide (f32Key b < f32Key a)

/-- The IEEE-754 ordered less-than-or-equal predicate on binary32
patterns (false whenever either operand is NaN).  This is the reference
predicate the spec compares `packed_le` against; it is not an operation
of the source. -/
def f32LeIEEE (a b : Nat) : Bool := !f32IsNan a && !f32IsNan b && decide (f32Key a ≤ f32Key b)

/-- Signed value of a 32-bit pattern (for PCMPGTD, which compares lanes
as two's-complement signed integers). -/
def toInt32 (b : Nat) : Int := if b % 2 ^ 32 < 2 ^ 31 then (b % 2 ^ 32 : Int) else (b % 2 ^ 32 : Int) - 2 ^ 32

-- ## Vector types

/-- `F32x4(__m128)`: four binary32 lanes, as bit patterns. -/
@[ext]
structure F32x4 where
  lanes : Fin 4 → Nat

/-- `U32x4(__m128i)`: four unsigned 32-bit lanes. -/
@[ext]
structure U32x4 where
  lanes : Fin 4 → Nat

/-- `I32x4(__m128i)`: four signed 32-bit lanes, kept as bit patterns. -/
@[ext]
structure I32x4 where
  lanes : Fin 4 → Nat

/-- `U8x16(__m128i)`: sixteen unsigned 8-bit lanes. -/
@[ext]
structure U8x16 where
  lanes : Fin 16 → Nat

/-- `F32x4::new(a, b, c, d)`: lanes in argument order. -/
def F32x4.new (a b c d : Nat) : F32x4 := ⟨![a, b, c, d]⟩

/-- `F32x4::splat(x)` (`_mm_set1_ps`). -/
def F32x4.splat (x : Nat) : F32x4 := ⟨fun _ => x⟩

/-- `U32x4::new(a, b, c, d)`. -/
def U32x4.new (a b c d : Nat) : U32x4 := ⟨![a, b, c, d]⟩

/-- `U32x4::splat(x)` (`_mm_set1_epi32`). -/
def U32x4.splat (x : Nat) : U32x4 := ⟨fun _ => x⟩

/-- `I32x4::new(a, b, c, d)`. -/
def I32x4.new (a b c d : Nat) : I32x4 := ⟨![a, b, c, d]⟩

/-- `I32x4::splat(x)`. -/
def I32x4.splat (x : Nat) : I32x4 := ⟨fun _ => x⟩

-- ## U32x4 operations

/-- `_mm_test_all_ones`: true iff all 128 bits are set, i.e. every 32-bit
lane equals 0xFFFFFFFF. -/
def U32x4.is_all_ones (v : U32x4) : Bool :=
  v.lanes 0 == 4294967295 && v.lanes 1 == 4294967295 && v.lanes 2 == 4294967295 && v.lanes 3 == 4294967295

/-- `_mm_test_all_zeros(v, v)`: true iff all 128 bits are clear. -/
def U32x4.is_all_zeroes (v : U32x4) : Bool :=
  v.lanes 0 == 0 && v.lanes 1 == 0 && v.lanes 2 == 0 && v.lanes 3 == 0

/-- `impl BitXor for U32x4` (`_mm_xor_si128`), lane-wise. -/
def U32x4.xor (a b : U32x4) : U32x4 := ⟨fun i => a.lanes i ^^^ b.lanes i⟩

/-- `impl Not for U32x4`: defined in the source as `self ^ U32x4::splat(!0)`. -/
def U32x4.not (v : U32x4) : U32x4 := U32x4.xor v (U32x4.splat 4294967295)

/-- `U32x4::packed_eq` (`_mm_cmpeq_epi32`): lane all-ones iff the 32-bit
lanes are bitwise equal, else all-zero. -/
def U32x4.packed_eq (a b : U32x4) : U32x4 :=
  ⟨fun i => if a.lanes i % 2 ^ 32 == b.lanes i % 2 ^ 32 then 4294967295 else 0⟩

-- ## F32x4 packed comparisons

/-- `F32x4::packed_eq` (`_mm_cmpeq_ps` then bit-cast to `U32x4`). -/
def F32x4.packed_eq (v w : F32x4) : U32x4 :=
  ⟨fun i => if f32Eq (v.lanes i) (w.lanes i) then 4294967295 else 0⟩

/-- `F32x4::packed_gt` (`_mm_cmpgt_ps` then bit-cast to `U32x4`). -/
def F32x4.packed_gt (v w : F32x4) : U32x4 :=
  ⟨fun i => if f32Gt (v.lanes i) (w.lanes i) then 4294967295 else 0⟩

/-- `F32x4::packed_lt`: the source defines it as `other.packed_gt(self)`. -/
def F32x4.packed_lt (v w : F32x4) : U32x4 := F32x4.packed_gt w v

/-- `F32x4::packed_le`: the source defines it as `!self.packed_gt(other)`. -/
def F32x4.packed_le (v w : F32x4) : U32x4 := U32x4.not (F32x4.packed_gt v w)

-- ## I32x4 packed comparisons

/-- `I32x4::packed_eq` (`_mm_cmpeq_epi32`). -/
def I32x4.packed_eq (a b : I32x4) : U32x4 :=
  ⟨fun i => if a.lanes i % 2 ^ 32 == b.lanes i % 2 ^ 32 then 4294967295 else 0⟩

/-- `I32x4::packed_gt` (`_mm_cmpgt_epi32`): signed lane comparison. -/
def I32x4.packed_gt (a b : I32x4) : U32x4 :=
  ⟨fun i => if decide (toInt32 (b.lanes i) < toInt32 (a.lanes i)) then 4294967295 else 0⟩

/-- `I32x4::packed_le`: the source defines it as `!self.packed_gt(other)`. -/
def I32x4.packed_le (a b : I32x4) : U32x4 := U32x4.not (I32x4.packed_gt a b)

-- ## F32x4 swizzles

/-- Single-source `_mm_shuffle_ps(v, v, imm)`: output lane i is input lane
number given by bits [2i, 2i+1] of the 8-bit immediate. -/
def F32x4.shuffleImm (imm : Nat) (v : F32x4) : F32x4 :=
  ⟨fun i => v.lanes ⟨imm / 4 ^ (i : Nat) % 4, Nat.mod_lt _ (by decide)⟩⟩

/-- `F32x4::xxxx` (`_mm_shuffle_ps(self, self, 0)`). -/
def F32x4.xxxx (v : F32x4) : F32x4 := F32x4.shuffleImm 0 v

/-- `F32x4::yxxx` (`_mm_shuffle_ps(self, self, 1)`). -/
def F32x4.yxxx (v : F32x4) : F32x4 := F32x4.shuffleImm 1 v

/-- `F32x4::zxxx` (`_mm_shuffle_ps(self, self, 2)`). -/
def F32x4.zxxx (v : F32x4) : F32x4 := F32x4.shuffleImm 2 v

/-- `F32x4::wxxx` (`_mm_shuffle_ps(self, self, 3)`). -/
def F32x4.wxxx (v : F32x4) : F32x4 := F32x4.shuffleImm 3 v

/-- `F32x4::xyxx` (`_mm_shuffle_ps(self, self, 4)`). -/
def F32x4.xyxx (v : F32x4) : F32x4 := F32x4.shuffleImm 4 v

/-- `F32x4::yyxx` (`_mm_shuffle_ps(self, self, 5)`). -/
def F32x4.yyxx (v : F32x4) : F32x4 := F32x4.shuffleImm 5 v

/-- `F32x4::zyxx` (`_mm_shuffle_ps(self, self, 6)`). -/
def F32x4.zyxx (v : F32x4) : F32x4 := F32x4.shuffleImm 6 v

/-- `F32x4::wyxx` (`_mm_shuffle_ps(self, self, 7)`). -/
def F32x4.wyxx (v : F32x4) : F32x4 := F32x4.shuffleImm 7 v

/-- `F32x4::xzxx` (`_mm_shuffle_ps(self, self, 8)`). -/
def F32x4.xzxx (v : F32x4) : F32x4 := F32x4.shuffleImm 8 v

/-- `F32x4::yzxx` (`_mm_shuffle_ps(self, self, 9)`). -/
def F32x4.yzxx (v : F32x4) : F32x4 := F32x4.shuffleImm 9 v

/-- `F32x4::zzxx` (`_mm_shuffle_ps(self, self, 10)`). -/
def F32x4.zzxx (v : F32x4) : F32x4 := F32x4.shuffleImm 10 v

/-- `F32x4::wzxx` (`_mm_shuffle_ps(self, self, 11)`). -/
def F32x4.wzxx (v : F32x4) : F32x4 := F32x4.shuffleImm 11 v

/-- `F32x4::xwxx` (`_mm_shuffle_ps(self, self, 12)`). -/
def F32x4.xwxx (v : F32x4) : F32x4 := F32x4.shuffleImm 12 v

/-- `F32x4::ywxx` (`_mm_shuffle_ps(self, self, 13)`). -/
def F32x4.ywxx (v : F32x4) : F32x4 := F32x4.shuffleImm 13 v

/-- `F32x4::zwxx` (`_mm_shuffle_ps(self, self, 14)`). -/
def F32x4.zwxx (v : F32x4) : F32x4 := F32x4.shuffleImm 14 v

/-- `F32x4::wwxx` (`_mm_shuffle_ps(self, self, 15)`). -/
def F32x4.wwxx (v : F32x4) : F32x4 := F32x4.shuffleImm 15 v

/-- `F32x4::xxyx` (`_mm_shuffle_ps(self, self, 16)`). -/
def F32x4.xxyx (v : F32x4) : F32x4 := F32x4.shuffleImm 16 v

/-- `F32x4::yxyx` (`_mm_shuffle_ps(self, self, 17)`). -/
def F32x4.yxyx (v : F32x4) : F32x4 := F32x4.shuffleImm 17 v

/-- `F32x4::zxyx` (`_mm_shuffle_ps(self, self, 18)`). -/
def F32x4.zxyx (v : F32x4) : F32x4 := F32x4.shuffleImm 18 v

/-- `F32x4::wxyx` (`_mm_shuffle_ps(self, self, 19)`). -/
def F32x4.wxyx (v : F32x4) : F32x4 := F32x4.shuffleImm 19 v

/-- `F32x4::xyyx` (`_mm_shuffle_ps(self, self, 20)`). -/
def F32x4.xyyx (v : F32x4) : F32x4 := F32x4.shuffleImm 20 v

/-- `F32x4::yyyx` (`_mm_shuffle_ps(self, self, 21)`). -/
def F32x4.yyyx (v : F32x4) : F32x4 := F32x4.shuffleImm 21 v

/-- `F32x4::zyyx` (`_mm_shuffle_ps(self, self, 22)`). -/
def F32x4.zyyx (v : F32x4) : F32x4 := F32x4.shuffleImm 22 v

/-- `F32x4::wyyx` (`_mm_shuffle_ps(self, self, 23)`). -/
def F32x4.wyyx (v : F32x4) : F32x4 := F32x4.shuffleImm 23 v

/-- `F32x4::xzyx` (`_mm_shuffle_ps(self, self, 24)`). -/
def F32x4.xzyx (v : F32x4) : F32x4 := F32x4.shuffleImm 24 v

/-- `F32x4::yzyx` (`_mm_shuffle_ps(self, self, 25)`). -/
def F32x4.yzyx (v : F32x4) : F32x4 := F32x4.shuffleImm 25 v

/-- `F32x4::zzyx` (`_mm_shuffle_ps(self, self, 26)`). -/
def F32x4.zzyx (v : F32x4) : F32x4 := F32x4.shuffleImm 26 v

/-- `F32x4::wzyx` (`_mm_shuffle_ps(self, self, 27)`). -/
def F32x4.wzyx (v : F32x4) : F32x4 := F32x4.shuffleImm 27 v

/-- `F32x4::xwyx` (`_mm_shuffle_ps(self, self, 28)`). -/
def F32x4.xwyx (v : F32x4) : F32x4 := F32x4.shuffleImm 28 v

/-- `F32x4::ywyx` (`_mm_shuffle_ps(self, self, 29)`). -/
def F32x4.ywyx (v : F32x4) : F32x4 := F32x4.shuffleImm 29 v

/-- `F32x4::zwyx` (`_mm_shuffle_ps(self, self, 30)`). -/
def F32x4.zwyx (v : F32x4) : F32x4 := F32x4.shuffleImm 30 v

/-- `F32x4::wwyx` (`_mm_shuffle_ps(self, self, 31)`). -/
def F32x4.wwyx (v : F32x4) : F32x4 := F32x4.shuffleImm 31 v

/-- `F32x4::xxzx` (`_mm_shuffle_ps(self, self, 32)`). -/
def F32x4.xxzx (v : F32x4) : F32x4 := F32x4.shuffleImm 32 v

/-- `F32x4::yxzx` (`_mm_shuffle_ps(self, self, 33)`). -/
def F32x4.yxzx (v : F32x4) : F32x4 := F32x4.shuffleImm 33 v

/-- `F32x4::zxzx` (`_mm_shuffle_ps(self, self, 34)`). -/
def F32x4.zxzx (v : F32x4) : F32x4 := F32x4.shuffleImm 34 v

/-- `F32x4::wxzx` (`_mm_shuffle_ps(self, self, 35)`). -/
def F32x4.wxzx (v : F32x4) : F32x4 := F32x4.shuffleImm 35 v

/-- `F32x4::xyzx` (`_mm_shuffle_ps(self, self, 36)`). -/
def F32x4.xyzx (v : F32x4) : F32x4 := F32x4.shuffleImm 36 v

/-- `F32x4::yyzx` (`_mm_shuffle_ps(self, self, 37)`). -/
def F32x4.yyzx (v : F32x4) : F32x4 := F32x4.shuffleImm 37 v

/-- `F32x4::zyzx` (`_mm_shuffle_ps(self, self, 38)`). -/
def F32x4.zyzx (v : F32x4) : F32x4 := F32x4.shuffleImm 38 v

/-- `F32x4::wyzx` (`_mm_shuffle_ps(self, self, 39)`). -/
def F32x4.wyzx (v : F32x4) : F32x4 := F32x4.shuffleImm 39 v

/-- `F32x4::xzzx` (`_mm_shuffle_ps(self, self, 40)`). -/
def F32x4.xzzx (v : F32x4) : F32x4 := F32x4.shuffleImm 40 v

/-- `F32x4::yzzx` (`_mm_shuffle_ps(self, self, 41)`). -/
def F32x4.yzzx (v : F32x4) : F32x4 := F32x4.shuffleImm 41 v

/-- `F32x4::zzzx` (`_mm_shuffle_ps(self, self, 42)`). -/
def F32x4.zzzx (v : F32x4) : F32x4 := F32x4.shuffleImm 42 v

/-- `F32x4::wzzx` (`_mm_shuffle_ps(self, self, 43)`). -/
def F32x4.wzzx (v : F32x4) : F32x4 := F32x4.shuffleImm 43 v

/-- `F32x4::xwzx` (`_mm_shuffle_ps(self, self, 44)`). -/
def F32x4.xwzx (v : F32x4) : F32x4 := F32x4.shuffleImm 44 v

/-- `F32x4::ywzx` (`_mm_shuffle_ps(self, self, 45)`). -/
def F32x4.ywzx (v : F32x4) : F32x4 := F32x4.shuffleImm 45 v

/-- `F32x4::zwzx` (`_mm_shuffle_ps(self, self, 46)`). -/
def F32x4.zwzx (v : F32x4) : F32x4 := F32x4.shuffleImm 46 v

/-- `F32x4::wwzx` (`_mm_shuffle_ps(self, self, 47)`). -/
def F32x4.wwzx (v : F32x4) : F32x4 := F32x4.shuffleImm 47 v

/-- `F32x4::xxwx` (`_mm_shuffle_ps(self, self, 48)`). -/
def F32x4.xxwx (v : F32x4) : F32x4 := F32x4.shuffleImm 48 v

/-- `F32x4::yxwx` (`_mm_shuffle_ps(self, self, 49)`). -/
def F32x4.yxwx (v : F32x4) : F32x4 := F32x4.shuffleImm 49 v

/-- `F32x4::zxwx` (`_mm_shuffle_ps(self, self, 50)`). -/
def F32x4.zxwx (v : F32x4) : F32x4 := F32x4.shuffleImm 50 v

/-- `F32x4::wxwx` (`_mm_shuffle_ps(self, self, 51)`). -/
def F32x4.wxwx (v : F32x4) : F32x4 := F32x4.shuffleImm 51 v

/-- `F32x4::xywx` (`_mm_shuffle_ps(self, self, 52)`). -/
def F32x4.xywx (v : F32x4) : F32x4 := F32x4.shuffleImm 52 v

/-- `F32x4::yywx` (`_mm_shuffle_ps(self, self, 53)`). -/
def F32x4.yywx (v : F32x4) : F32x4 := F32x4.shuffleImm 53 v

/-- `F32x4::zywx` (`_mm_shuffle_ps(self, self, 54)`). -/
def F32x4.zywx (v : F32x4) : F32x4 := F32x4.shuffleImm 54 v

/-- `F32x4::wywx` (`_mm_shuffle_ps(self, self, 55)`). -/
def F32x4.wywx (v : F32x4) : F32x4 := F32x4.shuffleImm 55 v

/-- `F32x4::xzwx` (`_mm_shuffle_ps(self, self, 56)`). -/
def F32x4.xzwx (v : F32x4) : F32x4 := F32x4.shuffleImm 56 v

/-- `F32x4::yzwx` (`_mm_shuffle_ps(self, self, 57)`). -/
def F32x4.yzwx (v : F32x4) : F32x4 := F32x4.shuffleImm 57 v

/-- `F32x4::zzwx` (`_mm_shuffle_ps(self, self, 58)`). -/
def F32x4.zzwx (v : F32x4) : F32x4 := F32x4.shuffleImm 58 v

/-- `F32x4::wzwx` (`_mm_shuffle_ps(self, self, 59)`). -/
def F32x4.wzwx (v : F32x4) : F32x4 := F32x4.shuffleImm 59 v

/-- `F32x4::xwwx` (`_mm_shuffle_ps(self, self, 60)`). -/
def F32x4.xwwx (v : F32x4) : F32x4 := F32x4.shuffleImm 60 v

/-- `F32x4::ywwx` (`_mm_shuffle_ps(self, self, 61)`). -/
def F32x4.ywwx (v : F32x4) : F32x4 := F32x4.shuffleImm 61 v

/-- `F32x4::zwwx` (`_mm_shuffle_ps(self, self, 62)`). -/
def F32x4.zwwx (v : F32x4) : F32x4 := F32x4.shuffleImm 62 v

/-- `F32x4::wwwx` (`_mm_shuffle_ps(self, self, 63)`). -/
def F32x4.wwwx (v : F32x4) : F32x4 := F32x4.shuffleImm 63 v

/-- `F32x4::xxxy` (`_mm_shuffle_ps(self, self, 64)`). -/
def F32x4.xxxy (v : F32x4) : F32x4 := F32x4.shuffleImm 64 v

/-- `F32x4::yxxy` (`_mm_shuffle_ps(self, self, 65)`). -/
def F32x4.yxxy (v : F32x4) : F32x4 := F32x4.shuffleImm 65 v

/-- `F32x4::zxxy` (`_mm_shuffle_ps(self, self, 66)`). -/
def F32x4.zxxy (v : F32x4) : F32x4 := F32x4.shuffleImm 66 v

/-- `F32x4::wxxy` (`_mm_shuffle_ps(self, self, 67)`). -/
def F32x4.wxxy (v : F32x4) : F32x4 := F32x4.shuffleImm 67 v

/-- `F32x4::xyxy` (`_mm_shuffle_ps(self, self, 68)`). -/
def F32x4.xyxy (v : F32x4) : F32x4 := F32x4.shuffleImm 68 v

/-- `F32x4::yyxy` (`_mm_shuffle_ps(self, self, 69)`). -/
def F32x4.yyxy (v : F32x4) : F32x4 := F32x4.shuffleImm 69 v

/-- `F32x4::zyxy` (`_mm_shuffle_ps(self, self, 70)`). -/
def F32x4.zyxy (v : F32x4) : F32x4 := F32x4.shuffleImm 70 v

/-- `F32x4::wyxy` (`_mm_shuffle_ps(self, self, 71)`). -/
def F32x4.wyxy (v : F32x4) : F32x4 := F32x4.shuffleImm 71 v

/-- `F32x4::xzxy` (`_mm_shuffle_ps(self, self, 72)`). -/
def F32x4.xzxy (v : F32x4) : F32x4 := F32x4.shuffleImm 72 v

/-- `F32x4::yzxy` (`_mm_shuffle_ps(self, self, 73)`). -/
def F32x4.yzxy (v : F32x4) : F32x4 := F32x4.shuffleImm 73 v

/-- `F32x4::zzxy` (`_mm_shuffle_ps(self, self, 74)`). -/
def F32x4.zzxy (v : F32x4) : F32x4 := F32x4.shuffleImm 74 v

/-- `F32x4::wzxy` (`_mm_shuffle_ps(self, self, 75)`). -/
def F32x4.wzxy (v : F32x4) : F32x4 := F32x4.shuffleImm 75 v

/-- `F32x4::xwxy` (`_mm_shuffle_ps(self, self, 76)`). -/
def F32x4.xwxy (v : F32x4) : F32x4 := F32x4.shuffleImm 76 v

/-- `F32x4::ywxy` (`_mm_shuffle_ps(self, self, 77)`). -/
def F32x4.ywxy (v : F32x4) : F32x4 := F32x4.shuffleImm 77 v

/-- `F32x4::zwxy` (`_mm_shuffle_ps(self, self, 78)`). -/
def F32x4.zwxy (v : F32x4) : F32x4 := F32x4.shuffleImm 78 v

/-- `F32x4::wwxy` (`_mm_shuffle_ps(self, self, 79)`). -/
def F32x4.wwxy (v : F32x4) : F32x4 := F32x4.shuffleImm 79 v

/-- `F32x4::xxyy` (`_mm_shuffle_ps(self, self, 80)`). -/
def F32x4.xxyy (v : F32x4) : F32x4 := F32x4.shuffleImm 80 v

/-- `F32x4::yxyy` (`_mm_shuffle_ps(self, self, 81)`). -/
def F32x4.yxyy (v : F32x4) : F32x4 := F32x4.shuffleImm 81 v

/-- `F32x4::zxyy` (`_mm_shuffle_ps(self, self, 82)`). -/
def F32x4.zxyy (v : F32x4) : F32x4 := F32x4.shuffleImm 82 v

/-- `F32x4::wxyy` (`_mm_shuffle_ps(self, self, 83)`). -/
def F32x4.wxyy (v : F32x4) : F32x4 := F32x4.shuffleImm 83 v

/-- `F32x4::xyyy` (`_mm_shuffle_ps(self, self, 84)`). -/
def F32x4.xyyy (v : F32x4) : F32x4 := F32x4.shuffleImm 84 v

/-- `F32x4::yyyy` (`_mm_shuffle_ps(self, self, 85)`). -/
def F32x4.yyyy (v : F32x4) : F32x4 := F32x4.shuffleImm 85 v

/-- `F32x4::zyyy` (`_mm_shuffle_ps(self, self, 86)`). -/
def F32x4.zyyy (v : F32x4) : F32x4 := F32x4.shuffleImm 86 v

/-- `F32x4::wyyy` (`_mm_shuffle_ps(self, self, 87)`). -/
def F32x4.wyyy (v : F32x4) : F32x4 := F32x4.shuffleImm 87 v

/-- `F32x4::xzyy` (`_mm_shuffle_ps(self, self, 88)`). -/
def F32x4.xzyy (v : F32x4) : F32x4 := F32x4.shuffleImm 88 v

/-- `F32x4::yzyy` (`_mm_shuffle_ps(self, self, 89)`). -/
def F32x4.yzyy (v : F32x4) : F32x4 := F32x4.shuffleImm 89 v

/-- `F32x4::zzyy` (`_mm_shuffle_ps(self, self, 90)`). -/
def F32x4.zzyy (v : F32x4) : F32x4 := F32x4.shuffleImm 90 v

/-- `F32x4::wzyy` (`_mm_shuffle_ps(self, self, 91)`). -/
def F32x4.wzyy (v : F32x4) : F32x4 := F32x4.shuffleImm 91 v

/-- `F32x4::xwyy` (`_mm_shuffle_ps(self, self, 92)`). -/
def F32x4.xwyy (v : F32x4) : F32x4 := F32x4.shuffleImm 92 v

/-- `F32x4::ywyy` (`_mm_shuffle_ps(self, self, 93)`). -/
def F32x4.ywyy (v : F32x4) : F32x4 := F32x4.shuffleImm 93 v

/-- `F32x4::zwyy` (`_mm_shuffle_ps(self, self, 94)`). -/
def F32x4.zwyy (v : F32x4) : F32x4 := F32x4.shuffleImm 94 v

/-- `F32x4::wwyy` (`_mm_shuffle_ps(self, self, 95)`). -/
def F32x4.wwyy (v : F32x4) : F32x4 := F32x4.shuffleImm 95 v

/-- `F32x4::xxzy` (`_mm_shuffle_ps(self, self, 96)`). -/
def F32x4.xxzy (v : F32x4) : F32x4 := F32x4.shuffleImm 96 v

/-- `F32x4::yxzy` (`_mm_shuffle_ps(self, self, 97)`). -/
def F32x4.yxzy (v : F32x4) : F32x4 := F32x4.shuffleImm 97 v

/-- `F32x4::zxzy` (`_mm_shuffle_ps(self, self, 98)`). -/
def F32x4.zxzy (v : F32x4) : F32x4 := F32x4.shuffleImm 98 v

/-- `F32x4::wxzy` (`_mm_shuffle_ps(self, self, 99)`). -/
def F32x4.wxzy (v : F32x4) : F32x4 := F32x4.shuffleImm 99 v

/-- `F32x4::xyzy` (`_mm_shuffle_ps(self, self, 100)`). -/
def F32x4.xyzy (v : F32x4) : F32x4 := F32x4.shuffleImm 100 v

/-- `F32x4::yyzy` (`_mm_shuffle_ps(self, self, 101)`). -/
def F32x4.yyzy (v : F32x4) : F32x4 := F32x4.shuffleImm 101 v

/-- `F32x4::zyzy` (`_mm_shuffle_ps(self, self, 102)`). -/
def F32x4.zyzy (v : F32x4) : F32x4 := F32x4.shuffleImm 102 v

/-- `F32x4::wyzy` (`_mm_shuffle_ps(self, self, 103)`). -/
def F32x4.wyzy (v : F32x4) : F32x4 := F32x4.shuffleImm 103 v

/-- `F32x4::xzzy` (`_mm_shuffle_ps(self, self, 104)`). -/
def F32x4.xzzy (v : F32x4) : F32x4 := F32x4.shuffleImm 104 v

/-- `F32x4::yzzy` (`_mm_shuffle_ps(self, self, 105)`). -/
def F32x4.yzzy (v : F32x4) : F32x4 := F32x4.shuffleImm 105 v

/-- `F32x4::zzzy` (`_mm_shuffle_ps(self, self, 106)`). -/
def F32x4.zzzy (v : F32x4) : F32x4 := F32x4.shuffleImm 106 v

/-- `F32x4::wzzy` (`_mm_shuffle_ps(self, self, 107)`). -/
def F32x4.wzzy (v : F32x4) : F32x4 := F32x4.shuffleImm 107 v

/-- `F32x4::xwzy` (`_mm_shuffle_ps(self, self, 108)`). -/
def F32x4.xwzy (v : F32x4) : F32x4 := F32x4.shuffleImm 108 v

/-- `F32x4::ywzy` (`_mm_shuffle_ps(self, self, 109)`). -/
def F32x4.ywzy (v : F32x4) : F32x4 := F32x4.shuffleImm 109 v

/-- `F32x4::zwzy` (`_mm_shuffle_ps(self, self, 110)`). -/
def F32x4.zwzy (v : F32x4) : F32x4 := F32x4.shuffleImm 110 v

/-- `F32x4::wwzy` (`_mm_shuffle_ps(self, self, 111)`). -/
def F32x4.wwzy (v : F32x4) : F32x4 := F32x4.shuffleImm 111 v

/-- `F32x4::xxwy` (`_mm_shuffle_ps(self, self, 112)`). -/
def F32x4.xxwy (v : F32x4) : F32x4 := F32x4.shuffleImm 112 v

/-- `F32x4::yxwy` (`_mm_shuffle_ps(self, self, 113)`). -/
def F32x4.yxwy (v : F32x4) : F32x4 := F32x4.shuffleImm 113 v

/-- `F32x4::zxwy` (`_mm_shuffle_ps(self, self, 114)`). -/
def F32x4.zxwy (v : F32x4) : F32x4 := F32x4.shuffleImm 114 v

/-- `F32x4::wxwy` (`_mm_shuffle_ps(self, self, 115)`). -/
def F32x4.wxwy (v : F32x4) : F32x4 := F32x4.shuffleImm 115 v

/-- `F32x4::xywy` (`_mm_shuffle_ps(self, self, 116)`). -/
def F32x4.xywy (v : F32x4) : F32x4 := F32x4.shuffleImm 116 v

/-- `F32x4::yywy` (`_mm_shuffle_ps(self, self, 117)`). -/
def F32x4.yywy (v : F32x4) : F32x4 := F32x4.shuffleImm 117 v

/-- `F32x4::zywy` (`_mm_shuffle_ps(self, self, 118)`). -/
def F32x4.zywy (v : F32x4) : F32x4 := F32x4.shuffleImm 118 v

/-- `F32x4::wywy` (`_mm_shuffle_ps(self, self, 119)`). -/
def F32x4.wywy (v : F32x4) : F32x4 := F32x4.shuffleImm 119 v

/-- `F32x4::xzwy` (`_mm_shuffle_ps(self, self, 120)`). -/
def F32x4.xzwy (v : F32x4) : F32x4 := F32x4.shuffleImm 120 v

/-- `F32x4::yzwy` (`_mm_shuffle_ps(self, self, 121)`). -/
def F32x4.yzwy (v : F32x4) : F32x4 := F32x4.shuffleImm 121 v

/-- `F32x4::zzwy` (`_mm_shuffle_ps(self, self, 122)`). -/
def F32x4.zzwy (v : F32x4) : F32x4 := F32x4.shuffleImm 122 v

/-- `F32x4::wzwy` (`_mm_shuffle_ps(self, self, 123)`). -/
def F32x4.wzwy (v : F32x4) : F32x4 := F32x4.shuffleImm 123 v

/-- `F32x4::xwwy` (`_mm_shuffle_ps(self, self, 124)`). -/
def F32x4.xwwy (v : F32x4) : F32x4 := F32x4.shuffleImm 124 v

/-- `F32x4::ywwy` (`_mm_shuffle_ps(self, self, 125)`). -/
def F32x4.ywwy (v : F32x4) : F32x4 := F32x4.shuffleImm 125 v

/-- `F32x4::zwwy` (`_mm_shuffle_ps(self, self, 126)`). -/
def F32x4.zwwy (v : F32x4) : F32x4 := F32x4.shuffleImm 126 v

/-- `F32x4::wwwy` (`_mm_shuffle_ps(self, self, 127)`). -/
def F32x4.wwwy (v : F32x4) : F32x4 := F32x4.shuffleImm 127 v

/-- `F32x4::xxxz` (`_mm_shuffle_ps(self, self, 128)`). -/
def F32x4.xxxz (v : F32x4) : F32x4 := F32x4.shuffleImm 128 v

/-- `F32x4::yxxz` (`_mm_shuffle_ps(self, self, 129)`). -/
def F32x4.yxxz (v : F32x4) : F32x4 := F32x4.shuffleImm 129 v

/-- `F32x4::zxxz` (`_mm_shuffle_ps(self, self, 130)`). -/
def F32x4.zxxz (v : F32x4) : F32x4 := F32x4.shuffleImm 130 v

/-- `F32x4::wxxz` (`_mm_shuffle_ps(self, self, 131)`). -/
def F32x4.wxxz (v : F32x4) : F32x4 := F32x4.shuffleImm 131 v

/-- `F32x4::xyxz` (`_mm_shuffle_ps(self, self, 132)`). -/
def F32x4.xyxz (v : F32x4) : F32x4 := F32x4.shuffleImm 132 v

/-- `F32x4::yyxz` (`_mm_shuffle_ps(self, self, 133)`). -/
def F32x4.yyxz (v : F32x4) : F32x4 := F32x4.shuffleImm 133 v

/-- `F32x4::zyxz` (`_mm_shuffle_ps(self, self, 134)`). -/
def F32x4.zyxz (v : F32x4) : F32x4 := F32x4.shuffleImm 134 v

/-- `F32x4::wyxz` (`_mm_shuffle_ps(self, self, 135)`). -/
def F32x4.wyxz (v : F32x4) : F32x4 := F32x4.shuffleImm 135 v

/-- `F32x4::xzxz` (`_mm_shuffle_ps(self, self, 136)`). -/
def F32x4.xzxz (v : F32x4) : F32x4 := F32x4.shuffleImm 136 v

/-- `F32x4::yzxz` (`_mm_shuffle_ps(self, self, 137)`). -/
def F32x4.yzxz (v : F32x4) : F32x4 := F32x4.shuffleImm 137 v

/-- `F32x4::zzxz` (`_mm_shuffle_ps(self, self, 138)`). -/
def F32x4.zzxz (v : F32x4) : F32x4 := F32x4.shuffleImm 138 v

/-- `F32x4::wzxz` (`_mm_shuffle_ps(self, self, 139)`). -/
def F32x4.wzxz (v : F32x4) : F32x4 := F32x4.shuffleImm 139 v

/-- `F32x4::xwxz` (`_mm_shuffle_ps(self, self, 140)`). -/
def F32x4.xwxz (v : F32x4) : F32x4 := F32x4.shuffleImm 140 v

/-- `F32x4::ywxz` (`_mm_shuffle_ps(self, self, 141)`). -/
def F32x4.ywxz (v : F32x4) : F32x4 := F32x4.shuffleImm 141 v

/-- `F32x4::zwxz` (`_mm_shuffle_ps(self, self, 142)`). -/
def F32x4.zwxz (v : F32x4) : F32x4 := F32x4.shuffleImm 142 v

/-- `F32x4::wwxz` (`_mm_shuffle_ps(self, self, 143)`). -/
def F32x4.wwxz (v : F32x4) : F32x4 := F32x4.shuffleImm 143 v

/-- `F32x4::xxyz` (`_mm_shuffle_ps(self, self, 144)`). -/
def F32x4.xxyz (v : F32x4) : F32x4 := F32x4.shuffleImm 144 v

/-- `F32x4::yxyz` (`_mm_shuffle_ps(self, self, 145)`). -/
def F32x4.yxyz (v : F32x4) : F32x4 := F32x4.shuffleImm 145 v

/-- `F32x4::zxyz` (`_mm_shuffle_ps(self, self, 146)`). -/
def F32x4.zxyz (v : F32x4) : F32x4 := F32x4.shuffleImm 146 v

/-- `F32x4::wxyz` (`_mm_shuffle_ps(self, self, 147)`). -/
def F32x4.wxyz (v : F32x4) : F32x4 := F32x4.shuffleImm 147 v

/-- `F32x4::xyyz` (`_mm_shuffle_ps(self, self, 148)`). -/
def F32x4.xyyz (v : F32x4) : F32x4 := F32x4.shuffleImm 148 v

/-- `F32x4::yyyz` (`_mm_shuffle_ps(self, self, 149)`). -/
def F32x4.yyyz (v : F32x4) : F32x4 := F32x4.shuffleImm 149 v

/-- `F32x4::zyyz` (`_mm_shuffle_ps(self, self, 150)`). -/
def F32x4.zyyz (v : F32x4) : F32x4 := F32x4.shuffleImm 150 v

/-- `F32x4::wyyz` (`_mm_shuffle_ps(self, self, 151)`). -/
def F32x4.wyyz (v : F32x4) : F32x4 := F32x4.shuffleImm 151 v

/-- `F32x4::xzyz` (`_mm_shuffle_ps(self, self, 152)`). -/
def F32x4.xzyz (v : F32x4) : F32x4 := F32x4.shuffleImm 152 v

/-- `F32x4::yzyz` (`_mm_shuffle_ps(self, self, 153)`). -/
def F32x4.yzyz (v : F32x4) : F32x4 := F32x4.shuffleImm 153 v

/-- `F32x4::zzyz` (`_mm_shuffle_ps(self, self, 154)`). -/
def F32x4.zzyz (v : F32x4) : F32x4 := F32x4.shuffleImm 154 v

/-- `F32x4::wzyz` (`_mm_shuffle_ps(self, self, 155)`). -/
def F32x4.wzyz (v : F32x4) : F32x4 := F32x4.shuffleImm 155 v

/-- `F32x4::xwyz` (`_mm_shuffle_ps(self, self, 156)`). -/
def F32x4.xwyz (v : F32x4) : F32x4 := F32x4.shuffleImm 156 v

/-- `F32x4::ywyz` (`_mm_shuffle_ps(self, self, 157)`). -/
def F32x4.ywyz (v : F32x4) : F32x4 := F32x4.shuffleImm 157 v

/-- `F32x4::zwyz` (`_mm_shuffle_ps(self, self, 158)`). -/
def F32x4.zwyz (v : F32x4) : F32x4 := F32x4.shuffleImm 158 v

/-- `F32x4::wwyz` (`_mm_shuffle_ps(self, self, 159)`). -/
def F32x4.wwyz (v : F32x4) : F32x4 := F32x4.shuffleImm 159 v

/-- `F32x4::xxzz` (`_mm_shuffle_ps(self, self, 160)`). -/
def F32x4.xxzz (v : F32x4) : F32x4 := F32x4.shuffleImm 160 v

/-- `F32x4::yxzz` (`_mm_shuffle_ps(self, self, 161)`). -/
def F32x4.yxzz (v : F32x4) : F32x4 := F32x4.shuffleImm 161 v

/-- `F32x4::zxzz` (`_mm_shuffle_ps(self, self, 162)`). -/
def F32x4.zxzz (v : F32x4) : F32x4 := F32x4.shuffleImm 162 v

/-- `F32x4::wxzz` (`_mm_shuffle_ps(self, self, 163)`). -/
def F32x4.wxzz (v : F32x4) : F32x4 := F32x4.shuffleImm 163 v

/-- `F32x4::xyzz` (`_mm_shuffle_ps(self, self, 164)`). -/
def F32x4.xyzz (v : F32x4) : F32x4 := F32x4.shuffleImm 164 v

/-- `F32x4::yyzz` (`_mm_shuffle_ps(self, self, 165)`). -/
def F32x4.yyzz (v : F32x4) : F32x4 := F32x4.shuffleImm 165 v

/-- `F32x4::zyzz` (`_mm_shuffle_ps(self, self, 166)`). -/
def F32x4.zyzz (v : F32x4) : F32x4 := F32x4.shuffleImm 166 v

/-- `F32x4::wyzz` (`_mm_shuffle_ps(self, self, 167)`). -/
def F32x4.wyzz (v : F32x4) : F32x4 := F32x4.shuffleImm 167 v

/-- `F32x4::xzzz` (`_mm_shuffle_ps(self, self, 168)`). -/
def F32x4.xzzz (v : F32x4) : F32x4 := F32x4.shuffleImm 168 v

/-- `F32x4::yzzz` (`_mm_shuffle_ps(self, self, 169)`). -/
def F32x4.yzzz (v : F32x4) : F32x4 := F32x4.shuffleImm 169 v

/-- `F32x4::zzzz` (`_mm_shuffle_ps(self, self, 170)`). -/
def F32x4.zzzz (v : F32x4) : F32x4 := F32x4.shuffleImm 170 v

/-- `F32x4::wzzz` (`_mm_shuffle_ps(self, self, 171)`). -/
def F32x4.wzzz (v : F32x4) : F32x4 := F32x4.shuffleImm 171 v

/-- `F32x4::xwzz` (`_mm_shuffle_ps(self, self, 172)`). -/
def F32x4.xwzz (v : F32x4) : F32x4 := F32x4.shuffleImm 172 v

/-- `F32x4::ywzz` (`_mm_shuffle_ps(self, self, 173)`). -/
def F32x4.ywzz (v : F32x4) : F32x4 := F32x4.shuffleImm 173 v

/-- `F32x4::zwzz` (`_mm_shuffle_ps(self, self, 174)`). -/
def F32x4.zwzz (v : F32x4) : F32x4 := F32x4.shuffleImm 174 v

/-- `F32x4::wwzz` (`_mm_shuffle_ps(self, self, 175)`). -/
def F32x4.wwzz (v : F32x4) : F32x4 := F32x4.shuffleImm 175 v

/-- `F32x4::xxwz` (`_mm_shuffle_ps(self, self, 176)`). -/
def F32x4.xxwz (v : F32x4) : F32x4 := F32x4.shuffleImm 176 v

/-- `F32x4::yxwz` (`_mm_shuffle_ps(self, self, 177)`). -/
def F32x4.yxwz (v : F32x4) : F32x4 := F32x4.shuffleImm 177 v

/-- `F32x4::zxwz` (`_mm_shuffle_ps(self, self, 178)`). -/
def F32x4.zxwz (v : F32x4) : F32x4 := F32x4.shuffleImm 178 v

/-- `F32x4::wxwz` (`_mm_shuffle_ps(self, self, 179)`). -/
def F32x4.wxwz (v : F32x4) : F32x4 := F32x4.shuffleImm 179 v

/-- `F32x4::xywz` (`_mm_shuffle_ps(self, self, 180)`). -/
def F32x4.xywz (v : F32x4) : F32x4 := F32x4.shuffleImm 180 v

/-- `F32x4::yywz` (`_mm_shuffle_ps(self, self, 181)`). -/
def F32x4.yywz (v : F32x4) : F32x4 := F32x4.shuffleImm 181 v

/-- `F32x4::zywz` (`_mm_shuffle_ps(self, self, 182)`). -/
def F32x4.zywz (v : F32x4) : F32x4 := F32x4.shuffleImm 182 v

/-- `F32x4::wywz` (`_mm_shuffle_ps(self, self, 183)`). -/
def F32x4.wywz (v : F32x4) : F32x4 := F32x4.shuffleImm 183 v

/-- `F32x4::xzwz` (`_mm_shuffle_ps(self, self, 184)`). -/
def F32x4.xzwz (v : F32x4) : F32x4 := F32x4.shuffleImm 184 v

/-- `F32x4::yzwz` (`_mm_shuffle_ps(self, self, 185)`). -/
def F32x4.yzwz (v : F32x4) : F32x4 := F32x4.shuffleImm 185 v

/-- `F32x4::zzwz` (`_mm_shuffle_ps(self, self, 186)`). -/
def F32x4.zzwz (v : F32x4) : F32x4 := F32x4.shuffleImm 186 v

/-- `F32x4::wzwz` (`_mm_shuffle_ps(self, self, 187)`). -/
def F32x4.wzwz (v : F32x4) : F32x4 := F32x4.shuffleImm 187 v

/-- `F32x4::xwwz` (`_mm_shuffle_ps(self, self, 188)`). -/
def F32x4.xwwz (v : F32x4) : F32x4 := F32x4.shuffleImm 188 v

/-- `F32x4::ywwz` (`_mm_shuffle_ps(self, self, 189)`). -/
def F32x4.ywwz (v : F32x4) : F32x4 := F32x4.shuffleImm 189 v

/-- `F32x4::zwwz` (`_mm_shuffle_ps(self, self, 190)`). -/
def F32x4.zwwz (v : F32x4) : F32x4 := F32x4.shuffleImm 190 v

/-- `F32x4::wwwz` (`_mm_shuffle_ps(self, self, 191)`). -/
def F32x4.wwwz (v : F32x4) : F32x4 := F32x4.shuffleImm 191 v

/-- `F32x4::xxxw` (`_mm_shuffle_ps(self, self, 192)`). -/
def F32x4.xxxw (v : F32x4) : F32x4 := F32x4.shuffleImm 192 v

/-- `F32x4::yxxw` (`_mm_shuffle_ps(self, self, 193)`). -/
def F32x4.yxxw (v : F32x4) : F32x4 := F32x4.shuffleImm 193 v

/-- `F32x4::zxxw` (`_mm_shuffle_ps(self, self, 194)`). -/
def F32x4.zxxw (v : F32x4) : F32x4 := F32x4.shuffleImm 194 v

/-- `F32x4::wxxw` (`_mm_shuffle_ps(self, self, 195)`). -/
def F32x4.wxxw (v : F32x4) : F32x4 := F32x4.shuffleImm 195 v

/-- `F32x4::xyxw` (`_mm_shuffle_ps(self, self, 196)`). -/
def F32x4.xyxw (v : F32x4) : F32x4 := F32x4.shuffleImm 196 v

/-- `F32x4::yyxw` (`_mm_shuffle_ps(self, self, 197)`). -/
def F32x4.yyxw (v : F32x4) : F32x4 := F32x4.shuffleImm 197 v

/-- `F32x4::zyxw` (`_mm_shuffle_ps(self, self, 198)`). -/
def F32x4.zyxw (v : F32x4) : F32x4 := F32x4.shuffleImm 198 v

/-- `F32x4::wyxw` (`_mm_shuffle_ps(self, self, 199)`). -/
def F32x4.wyxw (v : F32x4) : F32x4 := F32x4.shuffleImm 199 v

/-- `F32x4::xzxw` (`_mm_shuffle_ps(self, self, 200)`). -/
def F32x4.xzxw (v : F32x4) : F32x4 := F32x4.shuffleImm 200 v

/-- `F32x4::yzxw` (`_mm_shuffle_ps(self, self, 201)`). -/
def F32x4.yzxw (v : F32x4) : F32x4 := F32x4.shuffleImm 201 v

/-- `F32x4::zzxw` (`_mm_shuffle_ps(self, self, 202)`). -/
def F32x4.zzxw (v : F32x4) : F32x4 := F32x4.shuffleImm 202 v

/-- `F32x4::wzxw` (`_mm_shuffle_ps(self, self, 203)`). -/
def F32x4.wzxw (v : F32x4) : F32x4 := F32x4.shuffleImm 203 v

/-- `F32x4::xwxw` (`_mm_shuffle_ps(self, self, 204)`). -/
def F32x4.xwxw (v : F32x4) : F32x4 := F32x4.shuffleImm 204 v

/-- `F32x4::ywxw` (`_mm_shuffle_ps(self, self, 205)`). -/
def F32x4.ywxw (v : F32x4) : F32x4 := F32x4.shuffleImm 205 v

/-- `F32x4::zwxw` (`_mm_shuffle_ps(self, self, 206)`). -/
def F32x4.zwxw (v : F32x4) : F32x4 := F32x4.shuffleImm 206 v

/-- `F32x4::wwxw` (`_mm_shuffle_ps(self, self, 207)`). -/
def F32x4.wwxw (v : F32x4) : F32x4 := F32x4.shuffleImm 207 v

/-- `F32x4::xxyw` (`_mm_shuffle_ps(self, self, 208)`). -/
def F32x4.xxyw (v : F32x4) : F32x4 := F32x4.shuffleImm 208 v

/-- `F32x4::yxyw` (`_mm_shuffle_ps(self, self, 209)`). -/
def F32x4.yxyw (v : F32x4) : F32x4 := F32x4.shuffleImm 209 v

/-- `F32x4::zxyw` (`_mm_shuffle_ps(self, self, 210)`). -/
def F32x4.zxyw (v : F32x4) : F32x4 := F32x4.shuffleImm 210 v

/-- `F32x4::wxyw` (`_mm_shuffle_ps(self, self, 211)`). -/
def F32x4.wxyw (v : F32x4) : F32x4 := F32x4.shuffleImm 211 v

/-- `F32x4::xyyw` (`_mm_shuffle_ps(self, self, 212)`). -/
def F32x4.xyyw (v : F32x4) : F32x4 := F32x4.shuffleImm 212 v

/-- `F32x4::yyyw` (`_mm_shuffle_ps(self, self, 213)`). -/
def F32x4.yyyw (v : F32x4) : F32x4 := F32x4.shuffleImm 213 v

/-- `F32x4::zyyw` (`_mm_shuffle_ps(self, self, 214)`). -/
def F32x4.zyyw (v : F32x4) : F32x4 := F32x4.shuffleImm 214 v

/-- `F32x4::wyyw` (`_mm_shuffle_ps(self, self, 215)`). -/
def F32x4.wyyw (v : F32x4) : F32x4 := F32x4.shuffleImm 215 v

/-- `F32x4::xzyw` (`_mm_shuffle_ps(self, self, 216)`). -/
def F32x4.xzyw (v : F32x4) : F32x4 := F32x4.shuffleImm 216 v

/-- `F32x4::yzyw` (`_mm_shuffle_ps(self, self, 217)`). -/
def F32x4.yzyw (v : F32x4) : F32x4 := F32x4.shuffleImm 217 v

/-- `F32x4::zzyw` (`_mm_shuffle_ps(self, self, 218)`). -/
def F32x4.zzyw (v : F32x4) : F32x4 := F32x4.shuffleImm 218 v

/-- `F32x4::wzyw` (`_mm_shuffle_ps(self, self, 219)`). -/
def F32x4.wzyw (v : F32x4) : F32x4 := F32x4.shuffleImm 219 v

/-- `F32x4::xwyw` (`_mm_shuffle_ps(self, self, 220)`). -/
def F32x4.xwyw (v : F32x4) : F32x4 := F32x4.shuffleImm 220 v

/-- `F32x4::ywyw` (`_mm_shuffle_ps(self, self, 221)`). -/
def F32x4.ywyw (v : F32x4) : F32x4 := F32x4.shuffleImm 221 v

/-- `F32x4::zwyw` (`_mm_shuffle_ps(self, self, 222)`). -/
def F32x4.zwyw (v : F32x4) : F32x4 := F32x4.shuffleImm 222 v

/-- `F32x4::wwyw` (`_mm_shuffle_ps(self, self, 223)`). -/
def F32x4.wwyw (v : F32x4) : F32x4 := F32x4.shuffleImm 223 v

/-- `F32x4::xxzw` (`_mm_shuffle_ps(self, self, 224)`). -/
def F32x4.xxzw (v : F32x4) : F32x4 := F32x4.shuffleImm 224 v

/-- `F32x4::yxzw` (`_mm_shuffle_ps(self, self, 225)`). -/
def F32x4.yxzw (v : F32x4) : F32x4 := F32x4.shuffleImm 225 v

/-- `F32x4::zxzw` (`_mm_shuffle_ps(self, self, 226)`). -/
def F32x4.zxzw (v : F32x4) : F32x4 := F32x4.shuffleImm 226 v

/-- `F32x4::wxzw` (`_mm_shuffle_ps(self, self, 227)`). -/
def F32x4.wxzw (v : F32x4) : F32x4 := F32x4.shuffleImm 227 v

/-- `F32x4::xyzw` (`_mm_shuffle_ps(self, self, 228)`). -/
def F32x4.xyzw (v : F32x4) : F32x4 := F32x4.shuffleImm 228 v

/-- `F32x4::yyzw` (`_mm_shuffle_ps(self, self, 229)`). -/
def F32x4.yyzw (v : F32x4) : F32x4 := F32x4.shuffleImm 229 v

/-- `F32x4::zyzw` (`_mm_shuffle_ps(self, self, 230)`). -/
def F32x4.zyzw (v : F32x4) : F32x4 := F32x4.shuffleImm 230 v

/-- `F32x4::wyzw` (`_mm_shuffle_ps(self, self, 231)`). -/
def F32x4.wyzw (v : F32x4) : F32x4 := F32x4.shuffleImm 231 v

/-- `F32x4::xzzw` (`_mm_shuffle_ps(self, self, 232)`). -/
def F32x4.xzzw (v : F32x4) : F32x4 := F32x4.shuffleImm 232 v

/-- `F32x4::yzzw` (`_mm_shuffle_ps(self, self, 233)`). -/
def F32x4.yzzw (v : F32x4) : F32x4 := F32x4.shuffleImm 233 v

/-- `F32x4::zzzw` (`_mm_shuffle_ps(self, self, 234)`). -/
def F32x4.zzzw (v : F32x4) : F32x4 := F32x4.shuffleImm 234 v

/-- `F32x4::wzzw` (`_mm_shuffle_ps(self, self, 235)`). -/
def F32x4.wzzw (v : F32x4) : F32x4 := F32x4.shuffleImm 235 v

/-- `F32x4::xwzw` (`_mm_shuffle_ps(self, self, 236)`). -/
def F32x4.xwzw (v : F32x4) : F32x4 := F32x4.shuffleImm 236 v

/-- `F32x4::ywzw` (`_mm_shuffle_ps(self, self, 237)`). -/
def F32x4.ywzw (v : F32x4) : F32x4 := F32x4.shuffleImm 237 v

/-- `F32x4::zwzw` (`_mm_shuffle_ps(self, self, 238)`). -/
def F32x4.zwzw (v : F32x4) : F32x4 := F32x4.shuffleImm 238 v

/-- `F32x4::wwzw` (`_mm_shuffle_ps(self, self, 239)`). -/
def F32x4.wwzw (v : F32x4) : F32x4 := F32x4.shuffleImm 239 v

/-- `F32x4::xxww` (`_mm_shuffle_ps(self, self, 240)`). -/
def F32x4.xxww (v : F32x4) : F32x4 := F32x4.shuffleImm 240 v

/-- `F32x4::yxww` (`_mm_shuffle_ps(self, self, 241)`). -/
def F32x4.yxww (v : F32x4) : F32x4 := F32x4.shuffleImm 241 v

/-- `F32x4::zxww` (`_mm_shuffle_ps(self, self, 242)`). -/
def F32x4.zxww (v : F32x4) : F32x4 := F32x4.shuffleImm 242 v

/-- `F32x4::wxww` (`_mm_shuffle_ps(self, self, 243)`). -/
def F32x4.wxww (v : F32x4) : F32x4 := F32x4.shuffleImm 243 v

/-- `F32x4::xyww` (`_mm_shuffle_ps(self, self, 244)`). -/
def F32x4.xyww (v : F32x4) : F32x4 := F32x4.shuffleImm 244 v

/-- `F32x4::yyww` (`_mm_shuffle_ps(self, self, 245)`). -/
def F32x4.yyww (v : F32x4) : F32x4 := F32x4.shuffleImm 245 v

/-- `F32x4::zyww` (`_mm_shuffle_ps(self, self, 246)`). -/
def F32x4.zyww (v : F32x4) : F32x4 := F32x4.shuffleImm 246 v

/-- `F32x4::wyww` (`_mm_shuffle_ps(self, self, 247)`). -/
def F32x4.wyww (v : F32x4) : F32x4 := F32x4.shuffleImm 247 v

/-- `F32x4::xzww` (`_mm_shuffle_ps(self, self, 248)`). -/
def F32x4.xzww (v : F32x4) : F32x4 := F32x4.shuffleImm 248 v

/-- `F32x4::yzww` (`_mm_shuffle_ps(self, self, 249)`). -/
def F32x4.yzww (v : F32x4) : F32x4 := F32x4.shuffleImm 249 v

/-- `F32x4::zzww` (`_mm_shuffle_ps(self, self, 250)`). -/
def F32x4.zzww (v : F32x4) : F32x4 := F32x4.shuffleImm 250 v

/-- `F32x4::wzww` (`_mm_shuffle_ps(self, self, 251)`). -/
def F32x4.wzww (v : F32x4) : F32x4 := F32x4.shuffleImm 251 v

/-- `F32x4::xwww` (`_mm_shuffle_ps(self, self, 252)`). -/
def F32x4.xwww (v : F32x4) : F32x4 := F32x4.shuffleImm 252 v

/-- `F32x4::ywww` (`_mm_shuffle_ps(self, self, 253)`). -/
def F32x4.ywww (v : F32x4) : F32x4 := F32x4.shuffleImm 253 v

/-- `F32x4::zwww` (`_mm_shuffle_ps(self, self, 254)`). -/
def F32x4.zwww (v : F32x4) : F32x4 := F32x4.shuffleImm 254 v

/-- `F32x4::wwww` (`_mm_shuffle_ps(self, self, 255)`). -/
def F32x4.wwww (v : F32x4) : F32x4 := F32x4.shuffleImm 255 v

-- ## F32x4 concatenations and transpose

/-- `_mm_unpacklo_pd` on `__m128` viewed as two 64-bit halves: result is
[low 64 bits of a, low 64 bits of b], i.e. lanes [a0, a1, b0, b1]. -/
def F32x4.unpackloPd (a b : F32x4) : F32x4 := ⟨![a.lanes 0, a.lanes 1, b.lanes 0, b.lanes 1]⟩

/-- `_mm_unpackhi_pd`: result is [high 64 bits of a, high 64 bits of b],
i.e. lanes [a2, a3, b2, b3]. -/
def F32x4.unpackhiPd (a b : F32x4) : F32x4 := ⟨![a.lanes 2, a.lanes 3, b.lanes 2, b.lanes 3]⟩

/-- `_mm_shuffle_pd(a, b, imm)`: low 64-bit half picked from a by bit 0
of imm, high half picked from b by bit 1. -/
def F32x4.shufflePd (a b : F32x4) (imm : Nat) : F32x4 :=
  ⟨![if imm % 2 == 0 then a.lanes 0 else a.lanes 2,
     if imm % 2 == 0 then a.lanes 1 else a.lanes 3,
     if imm / 2 % 2 == 0 then b.lanes 0 else b.lanes 2,
     if imm / 2 % 2 == 0 then b.lanes 1 else b.lanes 3]⟩

/-- Two-source `_mm_shuffle_ps(a, b, imm)`: output lanes 0 and 1 select
from a, lanes 2 and 3 select from b, by the 2-bit immediate fields. -/
def F32x4.shufflePs2 (a b : F32x4) (imm : Nat) : F32x4 :=
  ⟨![a.lanes ⟨imm % 4, Nat.mod_lt _ (by decide)⟩,
     a.lanes ⟨imm / 4 % 4, Nat.mod_lt _ (by decide)⟩,
     b.lanes ⟨imm / 16 % 4, Nat.mod_lt _ (by decide)⟩,
     b.lanes ⟨imm / 64 % 4, Nat.mod_lt _ (by decide)⟩]⟩

/-- `F32x4::concat_xy_xy`: `_mm_unpacklo_pd` of the two vectors cast to
packed doubles (and cast back). -/
def F32x4.concat_xy_xy (a b : F32x4) : F32x4 := F32x4.unpackloPd a b

/-- `F32x4::concat_xy_zw`: `_mm_shuffle_pd(self, other, 0b10)`. -/
def F32x4.concat_xy_zw (a b : F32x4) : F32x4 := F32x4.shufflePd a b 2

/-- `F32x4::concat_zw_zw`: `_mm_unpackhi_pd` of the two vectors. -/
def F32x4.concat_zw_zw (a b : F32x4) : F32x4 := F32x4.unpackhiPd a b

/-- `F32x4::concat_wz_yx`: `_mm_shuffle_ps(self, other, 0b0001_1011)`. -/
def F32x4.concat_wz_yx (a b : F32x4) : F32x4 := F32x4.shufflePs2 a b 27

/-- `_mm_unpacklo_ps(a, b)`: lanes [a0, b0, a1, b1]. -/
def F32x4.unpackloPs (a b : F32x4) : F32x4 := ⟨![a.lanes 0, b.lanes 0, a.lanes 1, b.lanes 1]⟩

/-- `_mm_unpackhi_ps(a, b)`: lanes [a2, b2, a3, b3]. -/
def F32x4.unpackhiPs (a b : F32x4) : F32x4 := ⟨![a.lanes 2, b.lanes 2, a.lanes 3, b.lanes 3]⟩

/-- `_mm_movelh_ps(a, b)`: lanes [a0, a1, b0, b1]. -/
def F32x4.movelhPs (a b : F32x4) : F32x4 := ⟨![a.lanes 0, a.lanes 1, b.lanes 0, b.lanes 1]⟩

/-- `_mm_movehl_ps(a, b)`: lanes [b2, b3, a2, a3]. -/
def F32x4.movehlPs (a b : F32x4) : F32x4 := ⟨![b.lanes 2, b.lanes 3, a.lanes 2, a.lanes 3]⟩

/-- `F32x4::transpose_4x4`, which calls `_MM_TRANSPOSE4_PS`; the in-place
mutation of the four rows becomes explicit state passing.  The body is
the unpack/move composition that `_MM_TRANSPOSE4_PS` expands to. -/
def F32x4.transpose_4x4 (a b c d : F32x4) : F32x4 × F32x4 × F32x4 × F32x4 :=
  let tmp0 := F32x4.unpackloPs a b
  let tmp2 := F32x4.unpackloPs c d
  let tmp1 := F32x4.unpackhiPs a b
  let tmp3 := F32x4.unpackhiPs c d
  (F32x4.movelhPs tmp0 tmp2, F32x4.movehlPs tmp2 tmp0,
   F32x4.movelhPs tmp1 tmp3, F32x4.movehlPs tmp3 tmp1)

-- ## U8x16 operations

/-- `U8x16::shuffle` (`_mm_shuffle_epi8`, PSHUFB): output byte i is 0
when bit 7 of index byte i is set, else the input byte selected by the
low 4 bits of index byte i.  A lane is a byte, so index lanes are read
modulo 256. -/
def U8x16.shuffle (v idx : U8x16) : U8x16 :=
  ⟨fun i =>
    if (idx.lanes i % 256).testBit 7 then 0
    else v.lanes ⟨idx.lanes i % 256 % 16, Nat.mod_lt _ (by decide)⟩⟩

/-- The vector whose lane i holds the value i; applying a swizzle to it
reads back the swizzle's source-lane selection. -/
def F32x4.laneIndexVec : F32x4 := ⟨fun i => (i : Nat)⟩

-- ## Theorems

@[simp]
theorem F32x4_lanes_mk (f : Fin 4 → Nat) (i : Fin 4) : (F32x4.mk f).lanes i = f i := rfl

@[simp]
theorem U32x4_lanes_mk (f : Fin 4 → Nat) (i : Fin 4) : (U32x4.mk f).lanes i = f i := rfl

/-- Claim C2: every mask lane produced by any packed comparison of the
layer (F32x4 packed_eq, packed_gt, packed_lt, packed_le; I32x4 packed_eq,
packed_gt, packed_le; U32x4 packed_eq) is either all-zero (0) or all-ones
(0xFFFFFFFF); no comparison emits a partially set lane. -/
theorem c2_masks_never_partial :
    (∀ v w : F32x4, ∀ i : Fin 4, (F32x4.packed_eq v w).lanes i = 0 ∨ (F32x4.packed_eq v w).lanes i = 4294967295) ∧
    (∀ v w : F32x4, ∀ i : Fin 4, (F32x4.packed_gt v w).lanes i = 0 ∨ (F32x4.packed_gt v w).lanes i = 4294967295) ∧
    (∀ v w : F32x4, ∀ i : Fin 4, (F32x4.packed_lt v w).lanes i = 0 ∨ (F32x4.packed_lt v w).lanes i = 4294967295) ∧
    (∀ v w : F32x4, ∀ i : Fin 4, (F32x4.packed_le v w).lanes i = 0 ∨ (F32x4.packed_le v w).lanes i = 4294967295) ∧
    (∀ a b : I32x4, ∀ i : Fin 4, (I32x4.packed_eq a b).lanes i = 0 ∨ (I32x4.packed_eq a b).lanes i = 4294967295) ∧
    (∀ a b : I32x4, ∀ i : Fin 4, (I32x4.packed_gt a b).lanes i = 0 ∨ (I32x4.packed_gt a b).lanes i = 4294967295) ∧
    (∀ a b : I32x4, ∀ i : Fin 4, (I32x4.packed_le a b).lanes i = 0 ∨ (I32x4.packed_le a b).lanes i = 4294967295) ∧
    (∀ a b : U32x4, ∀ i : Fin 4, (U32x4.packed_eq a b).lanes i = 0 ∨ (U32x4.packed_eq a b).lanes i = 4294967295) := by
  refine ⟨?_, ?_, ?_, ?_, ?_, ?_, ?_, ?_⟩ <;> intro v w i <;>
    simp only [F32x4.packed_eq, F32x4.packed_gt, F32x4.packed_lt, F32x4.packed_le,
      I32x4.packed_eq, I32x4.packed_gt, I32x4.packed_le, U32x4.packed_eq,
      U32x4.not, U32x4.xor, U32x4.splat] <;>
    split <;> simp

/-- Claim C3: for all F32x4 vectors v and w, packed_lt v w equals
packed_gt w v, and packed_le v w is the lane-wise bitwise complement
(the source's Not, i.e. xor with all-ones) of packed_gt v w; the same
complement identity holds for I32x4 packed_le against I32x4 packed_gt. -/
theorem c3_lt_le_definitional_identities :
    (∀ v w : F32x4, F32x4.packed_lt v w = F32x4.packed_gt w v) ∧
    (∀ v w : F32x4, F32x4.packed_le v w = U32x4.not (F32x4.packed_gt v w)) ∧
    (∀ a b : I32x4, I32x4.packed_le a b = U32x4.not (I32x4.packed_gt a b)) :=
  ⟨fun _ _ => rfl, fun _ _ => rfl, fun _ _ => rfl⟩

/-- Claim C1 (counterexample): the claim asserts packed_eq reflexivity
with no NaN precondition, but on the all-NaN vector (lane pattern
0x7FC00000, the canonical quiet NaN) the equality mask is all-zero, so
is_all_ones is false. -/
theorem c1_counterexample_nan_lane :
    (F32x4.packed_eq (F32x4.splat 2143289344) (F32x4.splat 2143289344)).is_all_ones = false := by
  decide

/-- Claim C1 (amended): for every F32x4 vector v none of whose lanes is a
NaN bit pattern, v.packed_eq(v).is_all_ones() holds. -/
theorem c1_packed_eq_refl_of_no_nan (v : F32x4)
    (h : ∀ i : Fin 4, f32IsNan (v.lanes i) = false) :
    (F32x4.packed_eq v v).is_all_ones = true := by
  have hlane : ∀ i : Fin 4, (F32x4.packed_eq v v).lanes i = 4294967295 := by
    intro i
    simp only [F32x4.packed_eq, f32Eq, h i]
    simp
  simp [U32x4.is_all_ones, hlane]

theorem c1_witness :
    (∀ i : Fin 4, f32IsNan ((F32x4.splat 0).lanes i) = false) ∧
    (F32x4.packed_eq (F32x4.splat 0) (F32x4.splat 0)).is_all_ones = true :=
  ⟨by decide, c1_packed_eq_refl_of_no_nan (F32x4.splat 0) (by decide)⟩

/-- Claim C10: whenever lane i of v or of w is a NaN bit pattern, lane i
of v.packed_le(w) is all-ones (true), while the IEEE ordered
less-than-or-equal predicate on those lanes is false: packed_le does not
agree with IEEE less-than-or-equal on NaN inputs. -/
theorem c10_packed_le_nan_true (v w : F32x4) (i : Fin 4)
    (h : f32IsNan (v.lanes i) = true ∨ f32IsNan (w.lanes i) = true) :
    (F32x4.packed_le v w).lanes i = 4294967295 ∧
    f32LeIEEE (v.lanes i) (w.lanes i) = false := by
  have hgt : f32Gt (v.lanes i) (w.lanes i) = false := by
    rcases h with h | h <;> simp [f32Gt, h]
  have hle : f32LeIEEE (v.lanes i) (w.lanes i) = false := by
    rcases h with h | h <;> simp [f32LeIEEE, h]
  refine ⟨?_, hle⟩
  simp [F32x4.packed_le, F32x4.packed_gt, U32x4.not, U32x4.xor, U32x4.splat, hgt]

theorem c10_witness :
    (f32IsNan ((F32x4.splat 2143289344).lanes 0) = true ∨
      f32IsNan ((F32x4.splat 0).lanes 0) = true) ∧
    ((F32x4.packed_le (F32x4.splat 2143289344) (F32x4.splat 0)).lanes 0 = 4294967295 ∧
      f32LeIEEE ((F32x4.splat 2143289344).lanes 0) ((F32x4.splat 0).lanes 0) = false) :=
  ⟨Or.inl (by decide),
    c10_packed_le_nan_true (F32x4.splat 2143289344) (F32x4.splat 0) 0 (Or.inl (by decide))⟩

/-- Claim C4: the swizzle accessors realize the lane-selection formula:
the general single-source shuffle puts input lane (imm / 4^i) % 4 into
output lane i; zyxw (immediate 198) yields [v2, v1, v0, v3]; the family
representatives xyzw, wzyx, xxxx, yyyy, zzzz, wwww behave as identity,
reversal and broadcasts; and distinct immediates below 256 give distinct
accessors (they disagree on the lane-index vector), so the 256 exposed
accessors are pairwise distinct. -/
theorem c4_swizzle_formula :
    (∀ (imm : Nat) (v : F32x4) (i : Fin 4),
      (F32x4.shuffleImm imm v).lanes i = v.lanes ⟨imm / 4 ^ (i : Nat) % 4, Nat.mod_lt _ (by decide)⟩) ∧
    (∀ v : F32x4, F32x4.zyxw v = F32x4.new (v.lanes 2) (v.lanes 1) (v.lanes 0) (v.lanes 3)) ∧
    (∀ v : F32x4, F32x4.xyzw v = v) ∧
    (∀ v : F32x4, F32x4.wzyx v = F32x4.new (v.lanes 3) (v.lanes 2) (v.lanes 1) (v.lanes 0)) ∧
    (∀ v : F32x4, F32x4.xxxx v = F32x4.splat (v.lanes 0)) ∧
    (∀ v : F32x4, F32x4.yyyy v = F32x4.splat (v.lanes 1)) ∧
    (∀ v : F32x4, F32x4.zzzz v = F32x4.splat (v.lanes 2)) ∧
    (∀ v : F32x4, F32x4.wwww v = F32x4.splat (v.lanes 3)) ∧
    (∀ imm1 imm2 : Nat, imm1 < 256 → imm2 < 256 →
      F32x4.shuffleImm imm1 F32x4.laneIndexVec = F32x4.shuffleImm imm2 F32x4.laneIndexVec →
      imm1 = imm2) := by
  refine ⟨fun _ _ _ => rfl, ?_, ?_, ?_, ?_, ?_, ?_, ?_, ?_⟩
  · intro v; ext i; fin_cases i <;> rfl
  · intro v; ext i; fin_cases i <;> rfl
  · intro v; ext i; fin_cases i <;> rfl
  · intro v; ext i; fin_cases i <;> rfl
  · intro v; ext i; fin_cases i <;> rfl
  · intro v; ext i; fin_cases i <;> rfl
  · intro v; ext i; fin_cases i <;> rfl
  · intro imm1 imm2 h1 h2 h
    have h0 : imm1 / 4 ^ (0 : Nat) % 4 = imm2 / 4 ^ (0 : Nat) % 4 :=
      congrFun (congrArg F32x4.lanes h) 0
    have hb : imm1 / 4 ^ (1 : Nat) % 4 = imm2 / 4 ^ (1 : Nat) % 4 :=
      congrFun (congrArg F32x4.lanes h) 1
    have hc : imm1 / 4 ^ (2 : Nat) % 4 = imm2 / 4 ^ (2 : Nat) % 4 :=
      congrFun (congrArg F32x4.lanes h) 2
    have hd : imm1 / 4 ^ (3 : Nat) % 4 = imm2 / 4 ^ (3 : Nat) % 4 :=
      congrFun (congrArg F32x4.lanes h) 3
    norm_num at h0 hb hc hd
    omega

theorem c4_witness :
    (F32x4.zyxw (F32x4.new 10 11 12 13) = F32x4.new 12 11 10 13) ∧ (3 : Nat) = 3 :=
  ⟨by rw [c4_swizzle_formula.2.1]; ext i; fin_cases i <;> rfl,
    c4_swizzle_formula.2.2.2.2.2.2.2.2 3 3 (by decide) (by decide) rfl⟩

/-- Claim C5: the four concatenations build the stated lane tuples:
concat_xy_xy a b = [a0, a1, b0, b1]; concat_xy_zw a b = [a0, a1, b2, b3]
(so lanes 0..2 come from a and lanes 2..4 from b); concat_zw_zw a b =
[a2, a3, b2, b3]; concat_wz_yx a b = [a3, a2, b1, b0]. -/
theorem c5_concat_lane_tuples :
    (∀ a b : F32x4, F32x4.concat_xy_xy a b = F32x4.new (a.lanes 0) (a.lanes 1) (b.lanes 0) (b.lanes 1)) ∧
    (∀ a b : F32x4, F32x4.concat_xy_zw a b = F32x4.new (a.lanes 0) (a.lanes 1) (b.lanes 2) (b.lanes 3)) ∧
    (∀ a b : F32x4, F32x4.concat_zw_zw a b = F32x4.new (a.lanes 2) (a.lanes 3) (b.lanes 2) (b.lanes 3)) ∧
    (∀ a b : F32x4, F32x4.concat_wz_yx a b = F32x4.new (a.lanes 3) (a.lanes 2) (b.lanes 1) (b.lanes 0)) := by
  refine ⟨?_, ?_, ?_, ?_⟩ <;> intro a b <;> ext i <;> fin_cases i <;> rfl

/-- Claim C6: PSHUFB gather semantics of U8x16::shuffle: when bit 7 of
index byte i is set the output byte i is 0 (whatever the low 4 bits
hold), otherwise output byte i is the input byte at index
(indices[i] mod 16), i.e. indices[i] masked to its low 4 bits. -/
theorem c6_shuffle_gather (v idx : U8x16) (i : Fin 16) :
    ((idx.lanes i % 256).testBit 7 = true → (U8x16.shuffle v idx).lanes i = 0) ∧
    ((idx.lanes i % 256).testBit 7 = false →
      (U8x16.shuffle v idx).lanes i = v.lanes ⟨idx.lanes i % 16, Nat.mod_lt _ (by decide)⟩) := by
  constructor
  · intro h
    simp [U8x16.shuffle, h]
  · intro h
    simp only [U8x16.shuffle, h]
    simp only [Bool.false_eq_true, if_false]
    congr 1
    exact Fin.ext (Nat.mod_mod_of_dvd _ (by norm_num))

theorem c6_witness :
    (U8x16.shuffle ⟨fun i => (i : Nat) + 100⟩ ⟨fun _ => 133⟩).lanes 2 = 0 ∧
    (U8x16.shuffle ⟨fun i => (i : Nat) + 100⟩ ⟨fun _ => 37⟩).lanes 2 = 105 :=
  ⟨(c6_shuffle_gather ⟨fun i => (i : Nat) + 100⟩ ⟨fun _ => 133⟩ 2).1 (by decide),
    by rw [(c6_shuffle_gather ⟨fun i => (i : Nat) + 100⟩ ⟨fun _ => 37⟩ 2).2 (by decide)]; rfl⟩

theorem U32x4.is_all_ones_iff (v : U32x4) :
    U32x4.is_all_ones v = true ↔ ∀ i : Fin 4, v.lanes i = 4294967295 := by
  constructor
  · intro h i
    simp only [U32x4.is_all_ones, Bool.and_eq_true, beq_iff_eq] at h
    obtain ⟨⟨⟨h0, h1⟩, h2⟩, h3⟩ := h
    fin_cases i <;> assumption
  · intro h
    simp [U32x4.is_all_ones, h 0, h 1, h 2, h 3]

theorem U32x4.is_all_zeroes_iff (v : U32x4) :
    U32x4.is_all_zeroes v = true ↔ ∀ i : Fin 4, v.lanes i = 0 := by
  constructor
  · intro h i
    simp only [U32x4.is_all_zeroes, Bool.and_eq_true, beq_iff_eq] at h
    obtain ⟨⟨⟨h0, h1⟩, h2⟩, h3⟩ := h
    fin_cases i <;> assumption
  · intro h
    simp [U32x4.is_all_zeroes, h 0, h 1, h 2, h 3]

theorem nat_eq_allones_iff (n : Nat) (hn : n < 2 ^ 32) :
    n = 4294967295 ↔ ∀ k : Nat, k < 32 → n.testBit k = true := by
  have h32 : (4294967295 : Nat) = 2 ^ 32 - 1 := by norm_num
  constructor
  · rintro rfl k hk
    rw [h32, Nat.testBit_two_pow_sub_one]
    simpa using hk
  · intro h
    apply Nat.eq_of_testBit_eq
    intro k
    by_cases hk : k < 32
    · rw [h k hk, h32, Nat.testBit_two_pow_sub_one]
      simp [hk]
    · push_neg at hk
      rw [Nat.testBit_lt_two_pow (lt_of_lt_of_le hn (Nat.pow_le_pow_right (by norm_num) hk))]
      rw [h32, Nat.testBit_two_pow_sub_one]
      simp
      omega

theorem nat_eq_zero_iff_bits (n : Nat) (hn : n < 2 ^ 32) :
    n = 0 ↔ ∀ k : Nat, k < 32 → n.testBit k = false := by
  constructor
  · rintro rfl k _
    exact Nat.zero_testBit k
  · intro h
    apply Nat.eq_of_testBit_eq
    intro k
    by_cases hk : k < 32
    · rw [h k hk, Nat.zero_testBit]
    · push_neg at hk
      rw [Nat.testBit_lt_two_pow (lt_of_lt_of_le hn (Nat.pow_le_pow_right (by norm_num) hk)),
        Nat.zero_testBit]

/-- Claim C7: is_all_ones is true iff every bit of every lane is set and
is_all_zeroes is true iff every bit of every lane is clear (lanes being
32-bit values); is_all_ones (splat 0xFFFFFFFF) and
is_all_zeroes (splat 0) hold; and any vector with one all-ones lane and
one all-zero lane falsifies both predicates. -/
theorem c7_is_all_ones_zeroes (v : U32x4) (h : ∀ i : Fin 4, v.lanes i < 2 ^ 32) :
    (U32x4.is_all_ones v = true ↔ ∀ (i : Fin 4) (k : Nat), k < 32 → (v.lanes i).testBit k = true) ∧
    (U32x4.is_all_zeroes v = true ↔ ∀ (i : Fin 4) (k : Nat), k < 32 → (v.lanes i).testBit k = false) ∧
    U32x4.is_all_ones (U32x4.splat 4294967295) = true ∧
    U32x4.is_all_zeroes (U32x4.splat 0) = true ∧
    (∀ i j : Fin 4, v.lanes i = 4294967295 → v.lanes j = 0 →
      U32x4.is_all_ones v = false ∧ U32x4.is_all_zeroes v = false) := by
  refine ⟨?_, ?_, by decide, by decide, ?_⟩
  · rw [U32x4.is_all_ones_iff]
    constructor
    · intro hv i k hk
      exact (nat_eq_allones_iff _ (h i)).mp (hv i) k hk
    · intro hb i
      exact (nat_eq_allones_iff _ (h i)).mpr (hb i)
  · rw [U32x4.is_all_zeroes_iff]
    constructor
    · intro hv i k hk
      exact (nat_eq_zero_iff_bits _ (h i)).mp (hv i) k hk
    · intro hb i
      exact (nat_eq_zero_iff_bits _ (h i)).mpr (hb i)
  · intro i j hi hj
    constructor
    · apply Bool.eq_false_iff.mpr
      intro ht
      have := (U32x4.is_all_ones_iff v).mp ht j
      omega
    · apply Bool.eq_false_iff.mpr
      intro ht
      have := (U32x4.is_all_zeroes_iff v).mp ht i
      omega

theorem c7_witness :
    (∀ i : Fin 4, (U32x4.new 4294967295 0 4294967295 0).lanes i < 2 ^ 32) ∧
    (U32x4.is_all_ones (U32x4.new 4294967295 0 4294967295 0) = false ∧
      U32x4.is_all_zeroes (U32x4.new 4294967295 0 4294967295 0) = false) :=
  ⟨by decide,
    (c7_is_all_ones_zeroes (U32x4.new 4294967295 0 4294967295 0) (by decide)).2.2.2.2
      0 1 (by decide) (by decide)⟩

/-- Claim C8: one application of transpose_4x4 rewrites the four row
vectors as the columns of the 4x4 matrix they form, and applying
transpose_4x4 twice restores the original four vectors (involution). -/
theorem c8_transpose_involution :
    (∀ a b c d : F32x4,
      F32x4.transpose_4x4 a b c d =
        (F32x4.new (a.lanes 0) (b.lanes 0) (c.lanes 0) (d.lanes 0),
         F32x4.new (a.lanes 1) (b.lanes 1) (c.lanes 1) (d.lanes 1),
         F32x4.new (a.lanes 2) (b.lanes 2) (c.lanes 2) (d.lanes 2),
         F32x4.new (a.lanes 3) (b.lanes 3) (c.lanes 3) (d.lanes 3))) ∧
    (∀ a b c d : F32x4,
      F32x4.transpose_4x4 (F32x4.transpose_4x4 a b c d).1
        (F32x4.transpose_4x4 a b c d).2.1
        (F32x4.transpose_4x4 a b c d).2.2.1
        (F32x4.transpose_4x4 a b c d).2.2.2 = (a, b, c, d)) := by
  constructor <;> intro a b c d <;>
    refine Prod.ext ?_ (Prod.ext ?_ (Prod.ext ?_ ?_)) <;>
    · ext i
      fin_cases i <;> rfl
